import Mathlib

/-!
Verification of the multi-format log rendering subsystem of
`commands/log_printers.go` (package `commands`).

Go strings are modelled as `List Char` and the output sink (`io.Writer`)
as an explicit state threaded through each write.  Each printer is a pure
function from a sink and a `TemplateExecution` to the final sink, the
record as the call leaves it, and the returned `error` (`Option Str`,
`none` = `nil`).
-/

/-- A Go string, as a list of characters. -/
abbrev Str := List Char

/-- Characters of a Lean string literal, used to write Go string literals. -/
def lit (s : String) : Str := s.data

/-- Embeds Go `strings.Split(s, "\n")`: split on every newline,
leftmost first; the empty string yields one empty segment. -/
def splitNL : Str → List Str
  | [] => [[]]
  | c :: rest =>
    if c = '\n' then [] :: splitNL rest
    else
      match splitNL rest with
      | [] => [[c]]
      | s :: ss => (c :: s) :: ss

/-- Embeds Go `strings.Split(s, ", ")`: split on every non-overlapping
leftmost occurrence of the two-character separator. -/
def splitCS : Str → List Str
  | [] => [[]]
  | ',' :: ' ' :: rest => [] :: splitCS rest
  | c :: rest =>
    match splitCS rest with
    | [] => [[c]]
    | s :: ss => (c :: s) :: ss

/-- Embeds Go `strings.Join(l, ", ")`. -/
def joinCS : List Str → Str
  | [] => []
  | [x] => x
  | x :: xs => x ++ ',' :: ' ' :: joinCS xs

/-- Byte-wise lexicographic string comparison, the order used by Go
`sort.Strings`. -/
def strLe : Str → Str → Bool
  | [], _ => true
  | _ :: _, [] => false
  | a :: as, b :: bs =>
    if a < b then true
    else if b < a then false
    else strLe as bs

/-- Insert a string into a `strLe`-sorted list, keeping it sorted. -/
def insertSorted (x : Str) : List Str → List Str
  | [] => [x]
  | y :: ys => if strLe x y then x :: y :: ys else y :: insertSorted x ys

/-- Embeds Go `sort.Strings`: sorts a string slice in byte-wise
lexicographic order (an insertion sort; the result is the sorted
permutation, which is what `sort.Strings` produces). -/
def sortStrings (l : List Str) : List Str := l.foldr insertSorted []

/-- Go `fmt` rendering of a non-negative integer (`%d`). -/
def natToStr (n : Nat) : Str := Nat.toDigits 10 n

/-- Go `fmt` rendering of an `int` (`%d`). -/
def intToStr : Int → Str
  | Int.ofNat n => natToStr n
  | Int.negSucc n => '-' :: natToStr (n + 1)

/-- Modelled from the spec: collaborator D, the terminal styling
capability.  The styling functions only wrap a string for display and may
be substituted by the no-op identity passthrough; they are modelled as
that passthrough (their definitions live outside `src/`). -/
def renderRedFn (s : Str) : Str := s

/-- Modelled from the spec: affirmative-color styling, no-op passthrough
(see `renderRedFn`). -/
def renderGreenFn (s : Str) : Str := s

/-- Modelled from the spec: identifier-highlight styling, no-op
passthrough (see `renderRedFn`). -/
def renderYellowFn (s : Str) : Str := s

/-- Modelled from the spec: metadata-highlight styling, no-op passthrough
(see `renderRedFn`). -/
def renderBlueFn (s : Str) : Str := s

/-- One iterated command of an execution, as `(*fullLogPrinter).print`
and `(*defaultPrinter).print` observe it: the `CmdErr` and `CmdResult`
fields, the `Err()` and `Result()` accessors, the `String()` rendering
and the `Action`/`Entity` fields.  The accessors are implemented in the
`template` package outside `src/`, so they are modelled as independent
observations; a result value matters to rendering only through whether it
is a string, so `interface{}` results are modelled as `Option Str`
(`none` = not a string or `nil`). -/
structure CommandNode where
  cmdErr : Option Str
  cmdResult : Option Str
  errA : Option Str
  resultA : Option Str
  strRepr : Str
  action : Str
  entity : Str
deriving DecidableEq

/-- The execution record (`*template.TemplateExecution`) as the printers
observe it.  `dateStamp` models `t.Date().Format(time.Stamp)` and
`dateHumanized` models `console.HumanizeTime(t.Date())`, both opaque pure
projections of the date; `revertible` models the opaque predicate
`template.IsRevertible(t.Template)`; `statsOneliner` models the
precomputed `Stats().Oneliner` field. -/
structure TemplateExecution where
  id : Str
  author : Str
  locale : Str
  profile : Str
  dateStamp : Str
  dateHumanized : Str
  revertible : Bool
  statsOneliner : Str
  commands : List CommandNode
deriving DecidableEq

/-- Derived execution statistics (`template.ExecutionStats`). -/
structure ExecStats where
  cmdCount : Nat
  koCount : Nat
  oneliner : Str
  actionEntityCount : List (Str × Int)
deriving DecidableEq

/-- Increment the count of a key in an association list, appending the
key with count 1 when absent (a Go map, observed as key/count pairs). -/
def bumpCount (m : List (Str × Int)) (k : Str) : List (Str × Int) :=
  match m with
  | [] => [(k, 1)]
  | (k2, c) :: rest => if k2 = k then (k2, c + 1) :: rest else (k2, c) :: bumpCount rest k

/-- Modelled from the spec: the `"action entity"` label → occurrence
count mapping of `ExecutionStats`, whose value sum equals the total
command count. -/
def actionEntityCountOf (cmds : List CommandNode) : List (Str × Int) :=
  cmds.foldl (fun m c => bumpCount m (c.action ++ ' ' :: c.entity)) []

/-- Modelled from the spec: `t.Stats()` lives in the `template` package
outside `src/`.  Per the spec, the stats are derived on demand from the
record: total command count, failure count, the precomputed one-liner,
and the action-entity count mapping. -/
def TemplateExecution.stats (t : TemplateExecution) : ExecStats :=
  ⟨t.commands.length,
   (t.commands.filter (fun c => c.errA.isSome)).length,
   t.statsOneliner,
   actionEntityCountOf t.commands⟩

/-- The error message a failed sink write reports (opaque; owned by the
`io.Writer`). -/
def writeFailMsg : Str := lit "write failed"

/-- Modelled from the spec: the output sink (`io.Writer` collaborator).
`written` records each successful write as one chunk, in order.  A write
either appends its chunk and succeeds, or fails with an error; `budget`
models a writer that fails once a number of writes has been performed
(`none` = never fails), and `failures` counts the failed writes. -/
structure Sink where
  written : List Str
  budget : Option Nat
  failures : Nat
deriving DecidableEq

/-- One write to the sink: returns the new sink state and the write
error (`none` = success). -/
def Sink.write (s : Sink) (str : Str) : Sink × Option Str :=
  match s.budget with
  | none => (⟨s.written ++ [str], none, s.failures⟩, none)
  | some 0 => (⟨s.written, some 0, s.failures + 1⟩, some writeFailMsg)
  | some (k + 1) => (⟨s.written ++ [str], some k, s.failures⟩, none)

/-- Write a sequence of chunks, discarding each write's error — the way
every `fmt.Fprint`/`Fprintf`/`Fprintln` call in the printers discards
its result. -/
def writeAll (s : Sink) (chunks : List Str) : Sink :=
  chunks.foldl (fun s c => (s.write c).1) s

/-- A fresh, never-failing sink. -/
def freshSink : Sink := ⟨[], none, 0⟩

/-- The concatenated bytes a sink has received. -/
def Sink.output (s : Sink) : Str := s.written.flatten

/-- Embeds `formatMultiLineErrMsg`: remove every tab from the message
(`strings.Replace(msg, "\t", "", -1)`), split on newlines, and prefix
each resulting line with four spaces. -/
def formatMultiLineErrMsg (msg : Str) : List Str :=
  (splitNL (msg.filter (fun c => c ≠ '\t'))).map (fun line => lit "    " ++ line)

/-- The line contents `writeError` emits: nothing when the error is
absent; otherwise, for each formatted message line, the alerting-color
wrap of a tab followed by the line
(`renderRedFn(fmt.Sprintf("\t%s", msg))`), each written with its own
`fmt.Fprintln`. -/
def writeErrorLines (err : Option Str) : List Str :=
  match err with
  | none => []
  | some e => (formatMultiLineErrMsg e).map (fun msg => renderRedFn (lit "\t" ++ msg))

/-- Embeds `writeSimpleLogHeader` as the ordered chunks its
`fmt.Fprintf` calls write: the id/date line, then the optional
tab-separated author, region and profile fields, the optional
revertibility suffix, and the terminating newline of `fmt.Fprintln(w)`. -/
def simpleHeaderChunks (t : TemplateExecution) : List Str :=
  [lit "ID: " ++ renderYellowFn t.id ++ lit "\tDate: " ++ t.dateStamp]
  ++ (if t.author ≠ [] then [lit "\tAuthor: " ++ t.author] else [])
  ++ (if t.locale ≠ [] then [lit "\tRegion: " ++ t.locale] else [])
  ++ (if t.profile ≠ [] then [lit "\tProfile: " ++ t.profile] else [])
  ++ (if t.revertible = false then [lit " (not revertible)"] else [])
  ++ [lit "\n"]

/-- Embeds `writeRichLogHeader` as the ordered chunks its write calls
emit: the highlighted id, the " OK"/" KO" outcome tag (KO iff the
failure count is nonzero), the literal " - ", the one-liner when the
command count is 1 and `"<N> commands"` otherwise, the humanized age,
then the optional author/profile/locale fields and the optional
revertibility suffix.  No trailing newline. -/
def richHeaderChunks (t : TemplateExecution) : List Str :=
  [renderYellowFn t.id,
   if t.stats.koCount = 0 then lit " OK" else lit " KO",
   lit " - ",
   if t.stats.cmdCount = 1 then t.stats.oneliner
   else natToStr t.stats.cmdCount ++ lit " commands",
   lit " (" ++ t.dateHumanized ++ lit " ago)"]
  ++ ((if t.author ≠ [] then [lit " by " ++ renderBlueFn t.author] else [])
  ++ (if t.profile ≠ [] then [lit " with profile " ++ renderBlueFn t.profile] else [])
  ++ (if t.locale ≠ [] then [lit " in " ++ renderBlueFn t.locale] else [])
  ++ (if t.revertible = false then [lit " (not revertible)"] else []))

/-- The status tag of `(*fullLogPrinter).print`: alerting "KO" when the
`CmdErr` field is non-nil, affirmative "OK" otherwise. -/
def fullCmdStatus (cmd : CommandNode) : Str :=
  match cmd.cmdErr with
  | some _ => renderRedFn (lit "KO")
  | none => renderGreenFn (lit "OK")

/-- The per-command line of `(*fullLogPrinter).print`:
`"    <status>\t<cmd.String()>\t[<v>]"` when `CmdResult` is a non-empty
string, `"    <status>\t<cmd.String()>"` otherwise. -/
def fullCmdLine (cmd : CommandNode) : Str :=
  match cmd.cmdResult with
  | some v =>
    if v ≠ [] then
      lit "    " ++ fullCmdStatus cmd ++ lit "\t" ++ cmd.strRepr ++ lit "\t[" ++ v ++ lit "]"
    else
      lit "    " ++ fullCmdStatus cmd ++ lit "\t" ++ cmd.strRepr
  | none => lit "    " ++ fullCmdStatus cmd ++ lit "\t" ++ cmd.strRepr

/-- The chunks one loop iteration of `(*fullLogPrinter).print` writes:
the command line with its `Fprintln` newline, then the
`writeError(cmd.Err(), w)` lines, each with its `Fprintln` newline. -/
def fullCmdChunks (cmd : CommandNode) : List Str :=
  (fullCmdLine cmd ++ lit "\n") :: (writeErrorLines cmd.errA).map (fun l => l ++ lit "\n")

/-- Embeds `(*fullLogPrinter).print`: writes the simple header then the
per-command chunks; every write error is discarded and the method
returns `nil`.  The record is returned as the call leaves it. -/
def fullLogPrint (s : Sink) (t : TemplateExecution) :
    Sink × TemplateExecution × Option Str :=
  (writeAll s (simpleHeaderChunks t ++ (t.commands.map fullCmdChunks).flatten), t, none)

/-- The status tag of `(*defaultPrinter).print`: alerting "KO" when the
`Err()` accessor is non-nil, affirmative "OK" otherwise. -/
def defaultCmdStatus (cmd : CommandNode) : Str :=
  match cmd.errA with
  | some _ => renderRedFn (lit "KO")
  | none => renderGreenFn (lit "OK")

/-- The per-command line of `(*defaultPrinter).print`:
`"    <status>\t<Entity> = <v>\t"` when `Result()` is a non-empty
string, `"    <status>\t<Action> <Entity>\t"` otherwise. -/
def defaultCmdLine (cmd : CommandNode) : Str :=
  match cmd.resultA with
  | some v =>
    if v ≠ [] then
      lit "    " ++ defaultCmdStatus cmd ++ lit "\t" ++ cmd.entity ++ lit " = " ++ v ++ lit "\t"
    else
      lit "    " ++ defaultCmdStatus cmd ++ lit "\t" ++ cmd.action ++ lit " " ++ cmd.entity ++ lit "\t"
  | none => lit "    " ++ defaultCmdStatus cmd ++ lit "\t" ++ cmd.action ++ lit " " ++ cmd.entity ++ lit "\t"

/-- The chunks one loop iteration of `(*defaultPrinter).print` writes. -/
def defaultCmdChunks (cmd : CommandNode) : List Str :=
  (defaultCmdLine cmd ++ lit "\n") :: (writeErrorLines cmd.errA).map (fun l => l ++ lit "\n")

/-- Embeds `(*defaultPrinter).print`: one line per command plus error
blocks; write errors discarded, returns `nil`. -/
def defaultPrint (s : Sink) (t : TemplateExecution) :
    Sink × TemplateExecution × Option Str :=
  (writeAll s ((t.commands.map defaultCmdChunks).flatten), t, none)

/-- Embeds `projecting and sorting in alignActionEntityCount`: the
sorted slice `all` built from `fmt.Sprintf("%d %s", count, actionentity)`
over the map's entries, then `sort.Strings(all)`. -/
def projectEntry (p : Str × Int) : Str := intToStr p.2 ++ ' ' :: p.1

/-- The sorted projection slice `all` of `alignActionEntityCount`. -/
def projectAll (items : List (Str × Int)) : List Str :=
  sortStrings (items.map projectEntry)

/-- The row contents of `alignActionEntityCount` before joining: the
loop `for i := 0; i < len(all)/max; i++` takes the slice `all[i : i+max]`
(with `max = 6`) for each `i`, and when `len(all) % max > 0` the final
row is the slice `all[len(all)-remain:]`. -/
def alignChunks (items : List (Str × Int)) : List (List Str) :=
  (List.range ((projectAll items).length / 6)).map
    (fun i => ((projectAll items).drop i).take 6)
  ++ (if (projectAll items).length % 6 > 0 then
        [(projectAll items).drop ((projectAll items).length - (projectAll items).length % 6)]
      else [])

/-- Embeds `alignActionEntityCount`: each row slice joined with
`strings.Join(…, ", ")`, rows in loop order then the remainder row. -/
def alignActionEntityCount (items : List (Str × Int)) : List Str :=
  (alignChunks items).map joinCS

/-- The chunks `(*statLogPrinter).print` writes: the rich header, the
blank `fmt.Fprintln(p.w)` line, then — only when `stats.CmdCount > 1` —
one `"\t<row>\n"` chunk per aligned row. -/
def statChunks (t : TemplateExecution) : List Str :=
  richHeaderChunks t ++ [lit "\n"]
  ++ (if t.stats.cmdCount > 1 then
        (alignActionEntityCount t.stats.actionEntityCount).map
          (fun line => lit "\t" ++ line ++ lit "\n")
      else [])

/-- Embeds `(*statLogPrinter).print`: write errors discarded, returns
`nil`. -/
def statLogPrint (s : Sink) (t : TemplateExecution) :
    Sink × TemplateExecution × Option Str :=
  (writeAll s (statChunks t), t, none)

/-- Embeds `(*shortLogPrinter).print`: only the rich header; returns
`nil`. -/
def shortLogPrint (s : Sink) (t : TemplateExecution) :
    Sink × TemplateExecution × Option Str :=
  (writeAll s (richHeaderChunks t), t, none)

/-- Embeds `(*rawJSONPrinter).print`.  `encoding/json` is external: the
`marshal` parameter models `json.Marshal` on the record, and
`json.NewEncoder(w).Encode(t)` marshals, writes the document plus a
newline, and returns the marshal or write error; the printer wraps any
such error as `fmt.Errorf("json printer: %s", err)`. -/
def rawJSONPrint (marshal : TemplateExecution → Except Str Str)
    (s : Sink) (t : TemplateExecution) :
    Sink × TemplateExecution × Option Str :=
  match marshal t with
  | Except.error e => (s, t, some (lit "json printer: " ++ e))
  | Except.ok doc =>
    match s.write (doc ++ lit "\n") with
    | (s2, some e) => (s2, t, some (lit "json printer: " ++ e))
    | (s2, none) => (s2, t, none)

/-- Embeds `(*idOnlyPrinter).print`: a single `fmt.Fprint(p.w, t.ID)`
whose result is discarded; returns `nil`. -/
def idOnlyPrint (s : Sink) (t : TemplateExecution) :
    Sink × TemplateExecution × Option Str :=
  ((s.write t.id).1, t, none)

/-- A 12-entry label→count mapping (labels `"a"`–`"l"`, count 1 each),
the smallest shape on which the aligner's row loop runs twice. -/
def exMapC1 : List (Str × Int) :=
  [(lit "a", 1), (lit "b", 1), (lit "c", 1), (lit "d", 1), (lit "e", 1), (lit "f", 1),
   (lit "g", 1), (lit "h", 1), (lit "i", 1), (lit "j", 1), (lit "k", 1), (lit "l", 1)]

/-- A 12-entry label→count mapping with varied counts. -/
def exMapC7a : List (Str × Int) :=
  [(lit "aa", 1), (lit "ab", 2), (lit "ac", 1), (lit "ad", 3), (lit "ae", 1), (lit "af", 1),
   (lit "ag", 1), (lit "ah", 1), (lit "ai", 2), (lit "aj", 1), (lit "ak", 1), (lit "al", 1)]

/-- A 13-entry label→count mapping with varied counts. -/
def exMapC7b : List (Str × Int) :=
  [(lit "aa", 1), (lit "ab", 2), (lit "ac", 1), (lit "ad", 3), (lit "ae", 1), (lit "af", 1),
   (lit "ag", 1), (lit "ah", 1), (lit "ai", 2), (lit "aj", 1), (lit "ak", 1), (lit "al", 1),
   (lit "am", 4)]

/-- A marshaller that always fails with message `"boom"` (models a
record whose `CmdResult` holds a value `encoding/json` cannot marshal). -/
def marshalBoom : TemplateExecution → Except Str Str :=
  fun _ => Except.error (lit "boom")

/-- A concrete execution record with no commands. -/
def exTC3 : TemplateExecution :=
  ⟨lit "t3", [], [], [], lit "Jan  1 00:00:00", lit "3 hours", true, lit "one", []⟩

/-- A concrete execution record with no commands. -/
def exTC10 : TemplateExecution :=
  ⟨lit "t10", [], [], [], lit "Jan  1 00:00:00", lit "3 hours", true, lit "one", []⟩

/-- A command whose `CmdErr` field is nil while its `Err()` accessor
reports an error. -/
def exCmdC9 : CommandNode :=
  ⟨none, none, some (lit "boom"), none, lit "create vpc", lit "create", lit "vpc"⟩

/-- A concrete execution record holding exactly the command `exCmdC9`. -/
def exTC9 : TemplateExecution :=
  ⟨lit "t9", [], [], [], lit "Jan  1 00:00:00", lit "3 hours", true, lit "one", [exCmdC9]⟩

/-- A concrete execution record with one command. -/
def exTC6a : TemplateExecution :=
  ⟨lit "t6", [], [], [], lit "Jan  1 00:00:00", lit "3 hours", true,
   lit "create vpc done", [⟨none, none, none, none, lit "create vpc", lit "create", lit "vpc"⟩]⟩

/-- A concrete execution record with two commands. -/
def exTC6b : TemplateExecution :=
  ⟨lit "t6b", [], [], [], lit "Jan  1 00:00:00", lit "3 hours", true,
   lit "one",
   [⟨none, none, none, none, lit "create vpc", lit "create", lit "vpc"⟩,
    ⟨none, none, none, none, lit "create subnet", lit "create", lit "subnet"⟩]⟩

theorem splitNL_ne_nil (s : Str) : splitNL s ≠ [] := by
  cases s with
  | nil => simp [splitNL]
  | cons c rest =>
    simp only [splitNL]
    split
    · simp
    · split <;> simp

theorem splitNL_length (s : Str) : (splitNL s).length = s.count '\n' + 1 := by
  induction s with
  | nil => simp [splitNL]
  | cons c rest ih =>
    by_cases hc : c = '\n'
    · subst hc
      simp [splitNL, List.count_cons, ih]
    · cases h : splitNL rest with
      | nil => exact absurd h (splitNL_ne_nil rest)
      | cons s0 ss =>
        have ih2 := ih
        rw [h] at ih2
        simp only [List.length_cons] at ih2
        simp [splitNL, hc, h, List.count_cons, ih2]

theorem mem_of_mem_splitNL {s l : Str} {c : Char}
    (hl : l ∈ splitNL s) (hc : c ∈ l) : c ∈ s := by
  induction s generalizing l with
  | nil =>
    simp [splitNL] at hl
    subst hl
    simp at hc
  | cons a rest ih =>
    by_cases ha : a = '\n'
    · have hs : splitNL (a :: rest) = [] :: splitNL rest := by
        simp [splitNL, ha]
      rw [hs] at hl
      rcases List.mem_cons.mp hl with h1 | h2
      · rw [h1] at hc
        simp at hc
      · exact List.mem_cons_of_mem _ (ih h2 hc)
    · cases h : splitNL rest with
      | nil => exact absurd h (splitNL_ne_nil rest)
      | cons s0 ss =>
        have hs : splitNL (a :: rest) = (a :: s0) :: ss := by
          simp [splitNL, ha, h]
        rw [hs] at hl
        rcases List.mem_cons.mp hl with h1 | h2
        · rw [h1] at hc
          rcases List.mem_cons.mp hc with rfl | hc0
          · exact List.mem_cons_self _ _
          · exact List.mem_cons_of_mem _ (ih (h ▸ List.mem_cons_self s0 ss) hc0)
        · exact List.mem_cons_of_mem _ (ih (h ▸ List.mem_cons_of_mem s0 h2) hc)

theorem count_nl_filter_tab (s : Str) :
    ((s.filter (fun c => c ≠ '\t')).count '\n') = s.count '\n' := by
  induction s with
  | nil => rfl
  | cons c rest ih =>
    by_cases hc : c = '\t'
    · subst hc
      simp [List.count_cons, ih]
    · simp [List.filter_cons, hc, List.count_cons, ih]

theorem writeErrorLines_some_length (msg : Str) :
    (writeErrorLines (some msg)).length = (splitNL msg).length := by
  simp [writeErrorLines, formatMultiLineErrMsg, splitNL_length, count_nl_filter_tab]

theorem writeErrorLines_some_shape {msg l : Str}
    (h : l ∈ writeErrorLines (some msg)) :
    ∃ rest, l = '\t' :: rest ∧ '\t' ∉ rest := by
  simp only [writeErrorLines, formatMultiLineErrMsg, List.map_map, List.mem_map,
    Function.comp] at h
  obtain ⟨seg, hseg, rfl⟩ := h
  refine ⟨lit "    " ++ seg, rfl, ?_⟩
  intro hmem
  rcases List.mem_append.mp hmem with h4 | hs
  · simp [lit] at h4
  · have := mem_of_mem_splitNL hseg hs
    simp [List.mem_filter] at this

theorem writeAll_budget_none (chunks : List Str) (w : List Str) (f : Nat) :
    writeAll ⟨w, none, f⟩ chunks = ⟨w ++ chunks, none, f⟩ := by
  induction chunks generalizing w with
  | nil => simp [writeAll]
  | cons c cs ih =>
    have hstep : writeAll ⟨w, none, f⟩ (c :: cs) = writeAll ⟨w ++ [c], none, f⟩ cs := rfl
    rw [hstep, ih]
    simp

theorem insertSorted_length (x : Str) (l : List Str) :
    (insertSorted x l).length = l.length + 1 := by
  induction l with
  | nil => rfl
  | cons y ys ih =>
    simp only [insertSorted]
    split <;> simp [ih]

theorem sortStrings_length (l : List Str) : (sortStrings l).length = l.length := by
  induction l with
  | nil => rfl
  | cons x xs ih =>
    have : sortStrings (x :: xs) = insertSorted x (sortStrings xs) := rfl
    rw [this, insertSorted_length, ih]
    simp

theorem projectAll_length (items : List (Str × Int)) :
    (projectAll items).length = items.length := by
  rw [projectAll, sortStrings_length, List.length_map]

/-- Claim C1 (code bug, concrete evaluation): on the 12-entry mapping
`exMapC1` the aligner's rows, split back on `", "`, do NOT reproduce the
sorted projections: the loop slices `all[i:i+6]` are overlapping windows
(rows `all[0:6]` and `all[1:7]`), so `"1 b"`–`"1 f"` appear twice and
`"1 h"`–`"1 l"` are lost, contradicting the claimed exact partition. -/
theorem alignActionEntityCount_overlapping_rows_at_twelve :
    alignActionEntityCount exMapC1 =
      [lit "1 a, 1 b, 1 c, 1 d, 1 e, 1 f", lit "1 b, 1 c, 1 d, 1 e, 1 f, 1 g"] ∧
    ((alignActionEntityCount exMapC1).map splitCS).flatten ≠ projectAll exMapC1 ∧
    lit "1 h" ∈ projectAll exMapC1 ∧
    lit "1 h" ∉ ((alignActionEntityCount exMapC1).map splitCS).flatten ∧
    ((alignActionEntityCount exMapC1).map splitCS).flatten.count (lit "1 b") = 2 := by
  decide

/-- Claim C2 (counterexample): for the error message `"a\tb\nc"` the
error writer's output line count equals the message's segment count (2),
but the first output line `"\t    ab"` contains a tab character — the
indentation tab `writeError` itself prepends — falsifying the claim that
no output line contains a tab. -/
theorem writeError_line_contains_tab_cex :
    (writeErrorLines (some (lit "a\tb\nc"))).length = (splitNL (lit "a\tb\nc")).length ∧
    lit "\t    ab" ∈ writeErrorLines (some (lit "a\tb\nc")) ∧
    '\t' ∈ lit "\t    ab" := by
  decide

/-- Claim C2 (amended): for every error message, the error writer emits
one output line per newline-delimited segment of the message, and every
output line is a single leading tab followed by a tab-free remainder
(four indentation spaces plus the tab-stripped segment) — no tab occurs
beyond the leading indentation tab. -/
theorem writeError_line_count_and_tab_shape (msg : Str) :
    (writeErrorLines (some msg)).length = (splitNL msg).length ∧
    ∀ l ∈ writeErrorLines (some msg), ∃ rest, l = '\t' :: rest ∧ '\t' ∉ rest :=
  ⟨writeErrorLines_some_length msg, fun _ hl => writeErrorLines_some_shape hl⟩

/-- Claim C2 (witness): the amended theorem applied to the message
`"a\tb\nc"` and its first output line. -/
theorem writeError_line_count_and_tab_shape_witness :
    ∃ rest, lit "\t    ab" = '\t' :: rest ∧ '\t' ∉ rest :=
  (writeError_line_count_and_tab_shape (lit "a\tb\nc")).2 (lit "\t    ab") (by decide)

/-- Claim C3 (counterexample): rendering `exTC3` with the full renderer
into a sink that fails every write produces two failed writes, yet the
render call returns no error — a sink-write failure is silently dropped,
falsifying the claim that a render call errs whenever writing to the
sink fails. -/
theorem fullLogPrint_drops_write_failure_cex :
    (fullLogPrint ⟨[], some 0, 0⟩ exTC3).2.2 = none ∧
    (fullLogPrint ⟨[], some 0, 0⟩ exTC3).1.failures = 2 ∧
    (fullLogPrint ⟨[], some 0, 0⟩ exTC3).1.written = [] := by
  decide

/-- Claim C3 (amended): only the raw-JSON renderer propagates faults —
it returns an error iff serialization fails or its sink write fails, the
error wrapped as `"json printer: <underlying message>"` — while the
full, stat, short, default and identifier-only variants always return
success, dropping any sink-write failure. -/
theorem printer_fault_reporting (marshal : TemplateExecution → Except Str Str)
    (s : Sink) (t : TemplateExecution) :
    (fullLogPrint s t).2.2 = none ∧ (statLogPrint s t).2.2 = none ∧
    (shortLogPrint s t).2.2 = none ∧ (defaultPrint s t).2.2 = none ∧
    (idOnlyPrint s t).2.2 = none ∧
    (∀ e, marshal t = Except.error e →
      (rawJSONPrint marshal s t).2.2 = some (lit "json printer: " ++ e)) ∧
    (∀ doc, marshal t = Except.ok doc →
      ((rawJSONPrint marshal s t).2.2 = none ↔ (s.write (doc ++ lit "\n")).2 = none)) ∧
    (∀ doc e2, marshal t = Except.ok doc → (s.write (doc ++ lit "\n")).2 = some e2 →
      (rawJSONPrint marshal s t).2.2 = some (lit "json printer: " ++ e2)) := by
  refine ⟨rfl, rfl, rfl, rfl, rfl, ?_, ?_, ?_⟩
  · intro e hm
    simp [rawJSONPrint, hm]
  · intro doc hm
    rcases hw : s.write (doc ++ lit "\n") with ⟨s2, werr⟩
    cases werr <;> simp [rawJSONPrint, hm, hw]
  · intro doc e2 hm hw2
    rcases hw : s.write (doc ++ lit "\n") with ⟨s2, werr⟩
    rw [hw] at hw2
    simp only at hw2
    subst hw2
    simp [rawJSONPrint, hm, hw]

/-- Claim C3 (witness): a failing marshaller "boom" makes the raw-JSON
renderer return the wrapped error `"json printer: boom"`. -/
theorem printer_fault_reporting_witness :
    (rawJSONPrint marshalBoom freshSink exTC3).2.2 =
      some (lit "json printer: " ++ lit "boom") :=
  (printer_fault_reporting marshalBoom freshSink exTC3).2.2.2.2.2.1 (lit "boom") rfl

/-- Claim C4: in the full and default renderers the status tag is the
alerting "KO" tag iff the command's error is present (the `CmdErr` field
for the full renderer, the `Err()` accessor for the default renderer)
and the affirmative "OK" tag iff it is absent, for every command
regardless of its result value; the rendered line carries that tag after
the four-space indent and before a tab. -/
theorem status_tag_matches_error_presence (cmd : CommandNode) :
    ((fullCmdStatus cmd = renderRedFn (lit "KO")) ↔ cmd.cmdErr ≠ none) ∧
    ((fullCmdStatus cmd = renderGreenFn (lit "OK")) ↔ cmd.cmdErr = none) ∧
    ((defaultCmdStatus cmd = renderRedFn (lit "KO")) ↔ cmd.errA ≠ none) ∧
    ((defaultCmdStatus cmd = renderGreenFn (lit "OK")) ↔ cmd.errA = none) ∧
    (∃ rest, fullCmdLine cmd = lit "    " ++ fullCmdStatus cmd ++ lit "\t" ++ rest) ∧
    (∃ rest, defaultCmdLine cmd = lit "    " ++ defaultCmdStatus cmd ++ lit "\t" ++ rest) := by
  have hne : lit "KO" ≠ lit "OK" := by decide
  have hne2 : lit "OK" ≠ lit "KO" := by decide
  refine ⟨?_, ?_, ?_, ?_, ?_, ?_⟩
  · rcases h : cmd.cmdErr with _ | e <;>
      simp [fullCmdStatus, h, renderRedFn, renderGreenFn, hne2]
  · rcases h : cmd.cmdErr with _ | e <;>
      simp [fullCmdStatus, h, renderRedFn, renderGreenFn, hne]
  · rcases h : cmd.errA with _ | e <;>
      simp [defaultCmdStatus, h, renderRedFn, renderGreenFn, hne2]
  · rcases h : cmd.errA with _ | e <;>
      simp [defaultCmdStatus, h, renderRedFn, renderGreenFn, hne]
  · rcases h : cmd.cmdResult with _ | v
    · exact ⟨cmd.strRepr, by simp [fullCmdLine, h, List.append_assoc]⟩
    · by_cases hv : v = []
      · exact ⟨cmd.strRepr, by simp [fullCmdLine, h, hv, List.append_assoc]⟩
      · exact ⟨cmd.strRepr ++ lit "\t[" ++ v ++ lit "]",
          by simp [fullCmdLine, h, hv, List.append_assoc]⟩
  · rcases h : cmd.resultA with _ | v
    · exact ⟨cmd.action ++ lit " " ++ cmd.entity ++ lit "\t",
        by simp [defaultCmdLine, h, List.append_assoc]⟩
    · by_cases hv : v = []
      · exact ⟨cmd.action ++ lit " " ++ cmd.entity ++ lit "\t",
          by simp [defaultCmdLine, h, hv, List.append_assoc]⟩
      · exact ⟨cmd.entity ++ lit " = " ++ v ++ lit "\t",
          by simp [defaultCmdLine, h, hv, List.append_assoc]⟩

/-- Claim C5: for every execution record, the identifier-only renderer
sends exactly the record's identifier to the sink, byte for byte — its
whole output equals the identifier, with no surrounding whitespace and
no trailing newline. -/
theorem idOnlyPrint_writes_exactly_id (t : TemplateExecution) :
    ((idOnlyPrint freshSink t).1).output = t.id := by
  simp [idOnlyPrint, freshSink, Sink.write, Sink.output]

/-- Claim C6: the short renderer writes exactly the rich header's
chunks, and the header's fourth chunk — the count slot after the id, the
outcome tag and `" - "` — is the stats one-liner when the total command
count is 1 and `"<N> commands"` with N the actual total when it is
greater than 1. -/
theorem richHeader_oneliner_vs_commands (t : TemplateExecution) :
    ((shortLogPrint freshSink t).1).written = richHeaderChunks t ∧
    (t.commands.length = 1 → (richHeaderChunks t)[3]? = some t.statsOneliner) ∧
    (1 < t.commands.length →
      (richHeaderChunks t)[3]? = some (natToStr t.commands.length ++ lit " commands")) := by
  refine ⟨?_, ?_, ?_⟩
  · show (writeAll freshSink (richHeaderChunks t)).written = richHeaderChunks t
    rw [show freshSink = ⟨[], none, 0⟩ from rfl, writeAll_budget_none]
    simp
  · intro h1
    simp [richHeaderChunks, TemplateExecution.stats, h1]
  · intro h1
    have hne : t.commands.length ≠ 1 := by omega
    simp [richHeaderChunks, TemplateExecution.stats, hne]

/-- Claim C6 (witness): the theorem applied to a one-command record
(count slot shows the one-liner) and a two-command record (count slot
shows `"2 commands"`). -/
theorem richHeader_oneliner_vs_commands_witness :
    (richHeaderChunks exTC6a)[3]? = some exTC6a.statsOneliner ∧
    (richHeaderChunks exTC6b)[3]? = some (natToStr exTC6b.commands.length ++ lit " commands") :=
  ⟨(richHeader_oneliner_vs_commands exTC6a).2.1 (by decide),
   (richHeader_oneliner_vs_commands exTC6b).2.2 (by decide)⟩

/-- Claim C7: for every mapping of exactly 12 entries the aligner
produces exactly 2 rows whose slices hold 6 entries each and no
remainder row; for every mapping of exactly 13 entries it produces 2
rows of 6 entries and 1 remainder row of 1 entry. -/
theorem alignChunks_sizes_twelve_thirteen (items : List (Str × Int)) :
    (items.length = 12 →
      (alignChunks items).map List.length = [6, 6] ∧
      (alignActionEntityCount items).length = 2) ∧
    (items.length = 13 →
      (alignChunks items).map List.length = [6, 6, 1] ∧
      (alignActionEntityCount items).length = 3) := by
  constructor
  · intro h
    have hall : (projectAll items).length = 12 := by rw [projectAll_length, h]
    have hmap : (alignChunks items).map List.length = [6, 6] := by
      simp only [alignChunks, hall]
      norm_num
      simp [List.range_succ, List.length_take, List.length_drop, hall]
    refine ⟨hmap, ?_⟩
    have hlen : (alignActionEntityCount items).length
        = ((alignChunks items).map List.length).length := by
      simp [alignActionEntityCount]
    rw [hlen, hmap]
    rfl
  · intro h
    have hall : (projectAll items).length = 13 := by rw [projectAll_length, h]
    have hmap : (alignChunks items).map List.length = [6, 6, 1] := by
      simp only [alignChunks, hall]
      norm_num
      simp [List.range_succ, List.length_take, List.length_drop, hall]
    refine ⟨hmap, ?_⟩
    have hlen : (alignActionEntityCount items).length
        = ((alignChunks items).map List.length).length := by
      simp [alignActionEntityCount]
    rw [hlen, hmap]
    rfl

/-- Claim C7 (witness): the theorem applied to a concrete 12-entry and a
concrete 13-entry mapping. -/
theorem alignChunks_sizes_twelve_thirteen_witness :
    ((alignChunks exMapC7a).map List.length = [6, 6] ∧
      (alignActionEntityCount exMapC7a).length = 2) ∧
    ((alignChunks exMapC7b).map List.length = [6, 6, 1] ∧
      (alignActionEntityCount exMapC7b).length = 3) :=
  ⟨(alignChunks_sizes_twelve_thirteen exMapC7a).1 (by decide),
   (alignChunks_sizes_twelve_thirteen exMapC7b).2 (by decide)⟩

/-- Claim C8: every renderer variant returns the execution record
exactly as it received it — identifier, metadata, template reference and
command-outcome sequence unchanged — for every sink, record and
marshaller. -/
theorem printers_preserve_record (marshal : TemplateExecution → Except Str Str)
    (s : Sink) (t : TemplateExecution) :
    (fullLogPrint s t).2.1 = t ∧ (statLogPrint s t).2.1 = t ∧
    (shortLogPrint s t).2.1 = t ∧ (defaultPrint s t).2.1 = t ∧
    (rawJSONPrint marshal s t).2.1 = t ∧ (idOnlyPrint s t).2.1 = t := by
  refine ⟨rfl, rfl, rfl, rfl, ?_, rfl⟩
  rcases hm : marshal t with e | doc
  · simp [rawJSONPrint, hm]
  · rcases hw : s.write (doc ++ lit "\n") with ⟨s2, werr⟩
    cases werr <;> simp [rawJSONPrint, hm, hw]

/-- Claim C9: in the full renderer the status tag is decided by the
`CmdErr` field while the error block is driven by the `Err()` accessor:
for a command with `CmdErr` absent but `Err()` present, the printer
emits the affirmative "OK" tag and, immediately after the command line,
a non-empty indented error block (each block line starting with a tab). -/
theorem fullPrinter_ok_tag_with_error_block (cmd : CommandNode) (e : Str)
    (t : TemplateExecution) (h1 : cmd.cmdErr = none) (h2 : cmd.errA = some e)
    (h3 : t.commands = [cmd]) :
    fullCmdStatus cmd = renderGreenFn (lit "OK") ∧
    ((fullLogPrint freshSink t).1).written =
      simpleHeaderChunks t ++ (fullCmdLine cmd ++ lit "\n")
        :: (writeErrorLines (some e)).map (fun l => l ++ lit "\n") ∧
    0 < (writeErrorLines (some e)).length ∧
    (∀ l ∈ writeErrorLines (some e), ∃ rest, l = '\t' :: rest) := by
  refine ⟨?_, ?_, ?_, ?_⟩
  · simp [fullCmdStatus, h1]
  · show (writeAll freshSink _).written = _
    rw [show freshSink = ⟨[], none, 0⟩ from rfl, writeAll_budget_none]
    simp [h3, fullCmdChunks, h2]
  · rw [writeErrorLines_some_length, splitNL_length]
    omega
  · intro l hl
    obtain ⟨rest, hr, _⟩ := writeErrorLines_some_shape hl
    exact ⟨rest, hr⟩

/-- Claim C9 (witness): the theorem applied to the concrete command
`exCmdC9` (nil `CmdErr`, non-nil `Err()`) inside `exTC9`. -/
theorem fullPrinter_ok_tag_with_error_block_witness :
    fullCmdStatus exCmdC9 = renderGreenFn (lit "OK") :=
  (fullPrinter_ok_tag_with_error_block exCmdC9 (lit "boom") exTC9 rfl rfl rfl).1

/-- Claim C10: for every execution record with zero commands the rich
header's count slot reads `"0 commands"` — the one-liner branch is taken
only when the count is exactly 1, so a zero count falls into the
`"<N> commands"` branch. -/
theorem richHeader_zero_commands (t : TemplateExecution)
    (h0 : t.commands.length = 0) :
    (richHeaderChunks t)[3]? = some (lit "0 commands") := by
  have hne : t.commands.length ≠ 1 := by omega
  have h00 : natToStr 0 ++ lit " commands" = lit "0 commands" := by decide
  simp [richHeaderChunks, TemplateExecution.stats, hne, h0, h00]

/-- Claim C10 (witness): the theorem applied to the empty-command record
`exTC10`. -/
theorem richHeader_zero_commands_witness :
    (richHeaderChunks exTC10)[3]? = some (lit "0 commands") :=
  richHeader_zero_commands exTC10 rfl
